import Mathlib

/-!
Verification development for the job-dispatch pipeline of the repository:
a FastAPI backend that publishes job records to a RabbitMQ durable queue
(src/backend/main.py, function create_job) and a worker that consumes
them with prefetch 1 and explicit acks inside an unbounded reconnect
loop (src/worker/main.py, functions callback and main).

The Python sources are shallowly embedded: each broker operation the
code performs is recorded as an action in a trace, exceptions follow
the Python class hierarchy relevant to the code (the two except clauses
of the worker loop catch only subclasses of Exception, while
KeyboardInterrupt and SystemExit derive from BaseException and escape),
and the external broker is modelled from the spec where the claims need
its contract.
-/

/-- The Python exceptions distinguished by the code. The worker loop has
an except clause for pika.exceptions.AMQPConnectionError and a generic
except clause for Exception; KeyboardInterrupt and SystemExit derive
from BaseException, not Exception, so neither clause catches them. -/
inductive PyExn
  | amqpConnectionError (msg : String)
  | otherException (msg : String)
  | keyboardInterrupt
  | systemExit (code : Nat)
deriving DecidableEq, Repr

/-- Whether the exception is a subclass of Exception, i.e. whether a
generic except-Exception clause catches it. -/
def PyExn.isException : PyExn → Bool
  | .amqpConnectionError _ => true
  | .otherException _ => true
  | .keyboardInterrupt => false
  | .systemExit _ => false

/-- Whether the exception is a pika AMQPConnectionError. -/
def PyExn.isAMQPConnectionError : PyExn → Bool
  | .amqpConnectionError _ => true
  | _ => false

/-- The str(e) rendering used in logged and returned messages. -/
def PyExn.str : PyExn → String
  | .amqpConnectionError m => m
  | .otherException m => m
  | .keyboardInterrupt => "KeyboardInterrupt"
  | .systemExit c => toString c

/-- Default queue name, os.getenv RMQ_QUEUE with default work_queue,
shared by backend and worker. -/
def RMQ_QUEUE : String := "work_queue"

namespace Worker

/-- One observable step performed by the worker callback
(src/worker/main.py lines 15-20). -/
inductive WorkerAction
  | printReceived (body : String)
  | sleepSecs (n : Nat)
  | printDone
  | basicAck (deliveryTag : Nat)
deriving DecidableEq, Repr

/-- Whether the action is an acknowledgment back to the broker. -/
def WorkerAction.isAck : WorkerAction → Bool
  | .basicAck _ => true
  | _ => false

/-- The processing handler embedded in the callback body: print the
received body, simulate heavy processing with time.sleep(2), print Done
(src/worker/main.py lines 16-19). -/
def handlerTrace (body : String) : List WorkerAction :=
  [.printReceived body, .sleepSecs 2, .printDone]

/-- The callback registered with basic_consume: run the handler, then
ch.basic_ack with the delivery tag of this delivery
(src/worker/main.py lines 15-20). -/
def callback (body : String) (deliveryTag : Nat) : List WorkerAction :=
  handlerTrace body ++ [.basicAck deliveryTag]

/-- The callback where the handler may raise: the handler yields the
actions it completed and optionally the exception it raised. If it
raises, control never reaches the basic_ack line, so the trace is the
partial handler trace and the exception propagates out of the callback
(and hence out of channel.start_consuming). -/
def runCallback (handlerRes : List WorkerAction × Option PyExn)
    (deliveryTag : Nat) : List WorkerAction × Option PyExn :=
  match handlerRes with
  | (acts, none) => (acts ++ [.basicAck deliveryTag], none)
  | (acts, some e) => (acts, some e)

/-- One observable step of the setup the worker performs on each
successful connection (src/worker/main.py lines 34-43). -/
inductive SetupAction
  | queueDeclare (q : String) (durable : Bool)
  | basicQos (prefetchCount : Nat)
  | basicConsume (q : String)
  | startConsuming
deriving DecidableEq, Repr

/-- The sequence of channel operations after a successful connection:
declare the durable queue, set prefetch_count 1 for fair dispatch,
register the consumer, then block in start_consuming
(src/worker/main.py lines 37-43). -/
def workerSetup (q : String) : List SetupAction :=
  [.queueDeclare q true, .basicQos 1, .basicConsume q, .startConsuming]

/-- One observable step of the supervisor (retry) loop in main. -/
inductive SupAction
  | logConnectionFailed (msg : String)
  | logUnexpected (msg : String)
  | sleepRetry (secs : Nat)
deriving DecidableEq, Repr

/-- How one iteration of the while-True loop in main handles the
exception that escaped the try body (the try body blocks in
start_consuming, so every iteration ends with some exception):
an AMQPConnectionError is caught by the first except clause, any other
Exception subclass by the second; both log and time.sleep(5), after
which the loop continues. A BaseException outside Exception is caught
by neither clause and propagates out of main
(src/worker/main.py lines 24-49). -/
def mainStep (e : PyExn) : Option (List SupAction) :=
  if e.isAMQPConnectionError then
    some [.logConnectionFailed e.str, .sleepRetry 5]
  else if e.isException then
    some [.logUnexpected e.str, .sleepRetry 5]
  else none

/-- Run the retry loop of main against a finite sequence of escaping
exceptions, one per iteration. The result is the trace of supervisor
actions and the exception that escaped main, if any; none means the
loop is still running after all listed failures. -/
def mainRun : List PyExn → List SupAction × Option PyExn
  | [] => ([], none)
  | e :: rest =>
    match mainStep e with
    | some acts =>
      let r := mainRun rest
      (acts ++ r.1, r.2)
    | none => ([], some e)

/-- The outcome of the worker process. -/
inductive ProcResult
  | running
  | exited (code : Nat)
  | crashed (e : PyExn)
deriving DecidableEq, Repr

/-- The top-level guard of the worker (src/worker/main.py lines 51-59):
main() runs under a try whose only except clause catches
KeyboardInterrupt and then exits with status 0 (sys.exit(0), with
os._exit(0) as fallback); any other exception escaping main crashes
the process. -/
def workerProcess (es : List PyExn) : ProcResult :=
  match (mainRun es).2 with
  | none => .running
  | some .keyboardInterrupt => .exited 0
  | some e => .crashed e

/-- Disposition of the OS resources (including the broker TCP socket)
held by the worker process. -/
inductive ConnDisposition
  | released
  | heldOpen
deriving DecidableEq, Repr

/-- Modelled from the spec: process termination (clean exit or crash)
makes the operating system close every descriptor the process held,
including the broker connection socket, so a terminated worker leaves
no half-open broker connection; only a still-running process can hold
the connection open. The OS-level release is external behaviour not
present in src. -/
def connDisposition : ProcResult → ConnDisposition
  | .running => .heldOpen
  | .exited _ => .released
  | .crashed _ => .released

end Worker

namespace Backend

/-- The job id and body formatted by create_job
(src/backend/main.py line 220): the f-string
Job_{int(time.time())}_{job_type} at unix time ts. -/
def jobMessage (ts : Nat) (jobType : String) : String :=
  "Job_" ++ toString ts ++ "_" ++ jobType

/-- One observable broker operation performed by create_job. -/
inductive ProdAction
  | connectAttempt
  | openConnection
  | queueDeclare (q : String) (durable : Bool)
  | basicPublish (exchange routingKey body : String) (persistent : Bool)
  | closeConnection
deriving DecidableEq, Repr

/-- Whether the action is a message publish. -/
def ProdAction.isPublish : ProdAction → Bool
  | .basicPublish _ _ _ _ => true
  | _ => false

/-- Which broker operations fail during one call of create_job: the
connection attempt (get_rmq_connection), the queue declaration, or the
publish. none means the operation succeeds. -/
structure BrokerEnv where
  connectExn : Option PyExn
  declareExn : Option PyExn
  publishExn : Option PyExn
deriving DecidableEq, Repr

/-- The environment in which every broker operation succeeds. -/
def envOk : BrokerEnv := ⟨none, none, none⟩

/-- The HTTP-level result of create_job. -/
inductive JobResult
  | ok (status message queue : String)
  | httpError (code : Nat) (detail : String)
deriving DecidableEq, Repr

/-- The body of create_job (src/backend/main.py lines 210-237):
get_rmq_connection makes a single pika.BlockingConnection attempt
(connection_attempts defaults to 1); on success the channel declares
the durable queue, publishes the formatted message with
delivery_mode 2 (persistent) on the default exchange routed by the
queue name, and closes the connection, returning status queued with
the message and queue name. Any exception in the try body is caught by
the single except clause and mapped to HTTPException 500 with detail
Queue error: str(e); the except clause does not close the connection.
The trace records the operations that completed (plus the connection
attempt itself). -/
def create_job (env : BrokerEnv) (ts : Nat) (jobType : String) :
    List ProdAction × JobResult :=
  match env.connectExn with
  | some e => ([.connectAttempt], .httpError 500 ("Queue error: " ++ e.str))
  | none =>
    match env.declareExn with
    | some e =>
      ([.connectAttempt, .openConnection],
       .httpError 500 ("Queue error: " ++ e.str))
    | none =>
      match env.publishExn with
      | some e =>
        ([.connectAttempt, .openConnection, .queueDeclare RMQ_QUEUE true],
         .httpError 500 ("Queue error: " ++ e.str))
      | none =>
        ([.connectAttempt, .openConnection, .queueDeclare RMQ_QUEUE true,
          .basicPublish "" RMQ_QUEUE (jobMessage ts jobType) true,
          .closeConnection],
         .ok "queued" (jobMessage ts jobType) RMQ_QUEUE)

end Backend

namespace Broker

/-- Modelled from the spec: the state of the external Durable Queue
broker, which src only talks to through pika. It keeps the persisted
pending messages in order and the deliveries handed to a consumer but
not yet acknowledged, each under a fresh delivery tag. The broker
itself is an external collaborator of the repository and is specified
in the spec at its interface boundary. -/
structure BrokerState where
  pending : List String
  unacked : List (Nat × String)
  nextTag : Nat
deriving DecidableEq, Repr

/-- Events at the broker interface: a producer publish, a delivery to
the consumer, an explicit acknowledgment by delivery tag, and a
consumer disconnect (crash or connection loss). -/
inductive BrokerEvent
  | publish (m : String)
  | deliver
  | ack (tag : Nat)
  | disconnect
deriving DecidableEq, Repr

/-- Whether the event is an acknowledgment. -/
def BrokerEvent.isAckEvent : BrokerEvent → Bool
  | .ack _ => true
  | _ => false

/-- Modelled from the spec: one step of the Durable Queue contract.
Publish appends the record; deliver hands the head pending record to
the consumer under a fresh delivery tag; ack removes exactly the
delivery with that tag; a consumer disconnect requeues every
unacknowledged delivery for redelivery to a subsequent consumer
attempt. -/
def brokerStep (s : BrokerState) : BrokerEvent → BrokerState
  | .publish m => { s with pending := s.pending ++ [m] }
  | .deliver =>
    match s.pending with
    | [] => s
    | m :: rest =>
      { pending := rest, unacked := s.unacked ++ [(s.nextTag, m)],
        nextTag := s.nextTag + 1 }
  | .ack t => { s with unacked := s.unacked.filter (fun p => p.1 ≠ t) }
  | .disconnect =>
    { pending := s.unacked.map Prod.snd ++ s.pending, unacked := [],
      nextTag := s.nextTag }

/-- Whether the record m is still held by the broker, either pending or
delivered-but-unacknowledged. -/
def inBroker (m : String) (s : BrokerState) : Bool :=
  m ∈ s.pending || s.unacked.any (fun p => p.2 = m)

end Broker

/-- Any single non-ack broker event preserves the records the broker
holds: only an acknowledgment can remove a record. -/
lemma Broker.inBroker_step (s : Broker.BrokerState) (m : String)
    (ev : Broker.BrokerEvent) (hev : ev.isAckEvent = false)
    (hm : Broker.inBroker m s = true) :
    Broker.inBroker m (Broker.brokerStep s ev) = true := by
  cases ev with
  | publish m2 =>
    simp only [Broker.inBroker, Broker.brokerStep, List.mem_append,
      Bool.or_eq_true, decide_eq_true_eq, List.any_eq_true] at hm ⊢
    tauto
  | deliver =>
    cases hp : s.pending with
    | nil =>
      simpa [Broker.inBroker, Broker.brokerStep, hp] using hm
    | cons m2 rest =>
      simp only [Broker.inBroker, Broker.brokerStep, hp, List.mem_cons,
        List.any_append, List.any_cons, List.any_nil, Bool.or_eq_true,
        decide_eq_true_eq, List.any_eq_true, Bool.or_false] at hm ⊢
      rcases hm with (rfl | h) | h
      · right; right; rfl
      · left; exact h
      · right; left; exact h
  | ack t => simp [Broker.BrokerEvent.isAckEvent] at hev
  | disconnect =>
    simp only [Broker.inBroker, Broker.brokerStep, List.mem_append,
      List.mem_map, Bool.or_eq_true, decide_eq_true_eq, List.any_eq_true,
      List.any_nil, Bool.or_false] at hm ⊢
    rcases hm with h | ⟨p, hp, hpm⟩
    · right; exact h
    · left; exact ⟨p, hp, hpm⟩

/-- Each Exception-class failure escaping the worker try body is
caught, logged, and followed by a fixed 5 second sleep. -/
lemma Worker.mainStep_caught (e : PyExn) (he : e.isException = true) :
    ∃ lg, Worker.mainStep e =
      some [lg, Worker.SupAction.sleepRetry 5] := by
  cases e <;> simp_all [Worker.mainStep, PyExn.isException,
    PyExn.isAMQPConnectionError]

/-- Prepending iterations whose escaping exceptions are all
Exception-class failures does not change which exception, if any,
finally escapes the retry loop. -/
lemma Worker.mainRun_snd_append (es es2 : List PyExn)
    (h : ∀ e ∈ es, e.isException = true) :
    (Worker.mainRun (es ++ es2)).2 = (Worker.mainRun es2).2 := by
  induction es with
  | nil => rfl
  | cons e rest ih =>
    obtain ⟨lg, hstep⟩ := Worker.mainStep_caught e (h e (by simp))
    simp only [List.cons_append, Worker.mainRun, hstep]
    exact ih (fun x hx => h x (by simp [hx]))

/-- C1: for every delivery the worker callback first runs the handler
to completion and only then sends the single acknowledgment, carrying
the delivery tag of that delivery: the trace has exactly one ack, it is
the last action, it names the delivery tag, and every action before it
is a non-ack handler action. -/
theorem c1_ack_only_after_handler (body : String) (tag : Nat) :
    (Worker.callback body tag).countP (fun a => a.isAck) = 1 ∧
    (Worker.callback body tag).getLast? =
      some (Worker.WorkerAction.basicAck tag) ∧
    (Worker.callback body tag).dropLast = Worker.handlerTrace body ∧
    (∀ a ∈ (Worker.callback body tag).dropLast, a.isAck = false) := by
  refine ⟨?_, ?_, ?_, ?_⟩ <;>
    simp [Worker.callback, Worker.handlerTrace, Worker.WorkerAction.isAck,
      List.countP, List.countP.go]

/-- C3: on every successful connection the worker declares the queue
with durable set and sets prefetch exactly 1, both strictly before
entering start_consuming; any queue declaration it makes is durable and
any prefetch it sets is exactly 1. -/
theorem c3_durable_declare_and_prefetch_one (q : String) :
    (∃ i j k : Nat, i < k ∧ j < k ∧
      (Worker.workerSetup q).get? i =
        some (Worker.SetupAction.queueDeclare q true) ∧
      (Worker.workerSetup q).get? j = some (Worker.SetupAction.basicQos 1) ∧
      (Worker.workerSetup q).get? k = some Worker.SetupAction.startConsuming) ∧
    (∀ q2 b, Worker.SetupAction.queueDeclare q2 b ∈ Worker.workerSetup q →
      b = true) ∧
    (∀ n, Worker.SetupAction.basicQos n ∈ Worker.workerSetup q → n = 1) := by
  refine ⟨⟨0, 1, 3, by omega, by omega, rfl, rfl, rfl⟩, ?_, ?_⟩
  · intro q2 b h
    simp [Worker.workerSetup] at h
    exact h.2
  · intro n h
    simpa [Worker.workerSetup] using h

/-- C4: the job id produced at unix time ts with job type t is exactly
the string Job_ts_t with underscores as separators; at time 1700000000
with type scaling_test it is exactly Job_1700000000_scaling_test; and a
successful submission returns precisely that id, so two submissions of
the same type in the same second produce identical ids. -/
theorem c4_job_id_format (ts : Nat) (t : String) :
    Backend.jobMessage ts t = "Job_" ++ toString ts ++ "_" ++ t ∧
    Backend.jobMessage 1700000000 "scaling_test" =
      "Job_1700000000_scaling_test" ∧
    (Backend.create_job Backend.envOk ts t).2 =
      Backend.JobResult.ok "queued" (Backend.jobMessage ts t) RMQ_QUEUE := by
  exact ⟨rfl, rfl, rfl⟩

/-- C2: for every finite sequence of failures in which each escaping
exception is an Exception-class failure (connectivity or any other
unexpected exception), no exception escapes the retry loop, the worker
process is still running (the failure is never fatal and the loop never
terminates on its own), and every such failure is handled by logging it
and sleeping exactly 5 seconds before retrying. -/
theorem c2_supervisor_absorbs_failures (es : List PyExn)
    (h : ∀ e ∈ es, e.isException = true) :
    (Worker.mainRun es).2 = none ∧
    Worker.workerProcess es = Worker.ProcResult.running ∧
    ∀ e ∈ es, ∃ lg, Worker.mainStep e =
      some [lg, Worker.SupAction.sleepRetry 5] := by
  have h2 : (Worker.mainRun es).2 = none := by
    have := Worker.mainRun_snd_append es [] h
    simpa using this
  refine ⟨h2, ?_, fun e he => Worker.mainStep_caught e (h e he)⟩
  simp [Worker.workerProcess, h2]

/-- C2 witness: a connection failure followed by an unexpected error
are both absorbed by the retry loop. -/
theorem c2_witness :
    (∀ e ∈ [PyExn.amqpConnectionError "refused",
            PyExn.otherException "boom"], e.isException = true) ∧
    ((Worker.mainRun [PyExn.amqpConnectionError "refused",
        PyExn.otherException "boom"]).2 = none ∧
     Worker.workerProcess [PyExn.amqpConnectionError "refused",
        PyExn.otherException "boom"] = Worker.ProcResult.running ∧
     ∀ e ∈ [PyExn.amqpConnectionError "refused",
            PyExn.otherException "boom"], ∃ lg, Worker.mainStep e =
        some [lg, Worker.SupAction.sleepRetry 5]) :=
  ⟨by decide, c2_supervisor_absorbs_failures _ (by decide)⟩

/-- C5: every call of create_job performs at most one publish, a
successful call performs exactly one; every publish it ever performs
goes to the default exchange routed by the queue name, carries the
formatted job message, and has the persistent flag set; on the
successful path the durable queue declaration strictly precedes the
publish and the call returns status queued with the message and the
queue name. -/
theorem c5_exactly_one_persistent_publish (env : Backend.BrokerEnv)
    (ts : Nat) (t : String) :
    (Backend.create_job env ts t).1.countP (fun a => a.isPublish) ≤ 1 ∧
    (Backend.create_job Backend.envOk ts t).1.countP
      (fun a => a.isPublish) = 1 ∧
    (∀ ex rk b p, Backend.ProdAction.basicPublish ex rk b p ∈
        (Backend.create_job env ts t).1 →
      ex = "" ∧ rk = RMQ_QUEUE ∧ b = Backend.jobMessage ts t ∧ p = true) ∧
    (∃ i j : Nat, i < j ∧
      (Backend.create_job Backend.envOk ts t).1.get? i =
        some (Backend.ProdAction.queueDeclare RMQ_QUEUE true) ∧
      (Backend.create_job Backend.envOk ts t).1.get? j =
        some (Backend.ProdAction.basicPublish "" RMQ_QUEUE
          (Backend.jobMessage ts t) true)) ∧
    (Backend.create_job Backend.envOk ts t).2 =
      Backend.JobResult.ok "queued" (Backend.jobMessage ts t) RMQ_QUEUE := by
  obtain ⟨c, d, p⟩ := env
  refine ⟨?_, rfl, ?_, ⟨2, 3, by omega, rfl, rfl⟩, rfl⟩
  · cases c <;> cases d <;> cases p <;>
      simp [Backend.create_job, Backend.ProdAction.isPublish]
  · intro ex rk b pf hmem
    cases c <;> cases d <;> cases p <;> simp_all [Backend.create_job]

/-- C6: when the connection attempt itself fails (broker unreachable,
authentication failure, or timeout raising from get_rmq_connection),
create_job makes exactly one connection attempt, performs no other
broker operation and no retry, and the exception is mapped to the
server-error response HTTPException 500 with detail
Queue error: str(e). -/
theorem c6_unreachable_single_attempt_500 (e : PyExn)
    (dc pc : Option PyExn) (ts : Nat) (t : String) :
    (Backend.create_job ⟨some e, dc, pc⟩ ts t).1 =
      [Backend.ProdAction.connectAttempt] ∧
    (Backend.create_job ⟨some e, dc, pc⟩ ts t).1.count
      Backend.ProdAction.connectAttempt = 1 ∧
    (Backend.create_job ⟨some e, dc, pc⟩ ts t).2 =
      Backend.JobResult.httpError 500 ("Queue error: " ++ e.str) :=
  ⟨rfl, rfl, rfl⟩

/-- C7 counterexample: when the queue declaration raises after the
connection was opened, the except path of create_job returns the
server error without ever closing the connection handle, so the claim
that the handle is released on every exit path fails at this input. -/
theorem c7_counterexample :
    Backend.ProdAction.openConnection ∈
      (Backend.create_job ⟨none, some (PyExn.otherException "declare failed"),
        none⟩ 0 "scaling_test").1 ∧
    Backend.ProdAction.closeConnection ∉
      (Backend.create_job ⟨none, some (PyExn.otherException "declare failed"),
        none⟩ 0 "scaling_test").1 ∧
    (Backend.create_job ⟨none, some (PyExn.otherException "declare failed"),
        none⟩ 0 "scaling_test").2 =
      Backend.JobResult.httpError 500 "Queue error: declare failed" := by
  refine ⟨by decide, by decide, rfl⟩

/-- C7 amended: create_job closes the connection on the successful
path (as its last operation); when the connection attempt itself fails
no connection handle is ever opened, so a broker-unreachable failure
leaks no handle; but when the queue declaration or the publish raises
after the connection was opened, the except path returns without
closing the connection handle. -/
theorem c7_release_amended (ts : Nat) (t : String) (e : PyExn)
    (dc pc : Option PyExn) :
    (Backend.create_job Backend.envOk ts t).1.getLast? =
      some Backend.ProdAction.closeConnection ∧
    Backend.ProdAction.openConnection ∉
      (Backend.create_job ⟨some e, dc, pc⟩ ts t).1 ∧
    Backend.ProdAction.closeConnection ∉
      (Backend.create_job ⟨none, some e, pc⟩ ts t).1 ∧
    Backend.ProdAction.closeConnection ∉
      (Backend.create_job ⟨none, none, some e⟩ ts t).1 := by
  refine ⟨rfl, ?_, ?_, ?_⟩ <;> simp [Backend.create_job]

/-- C8: after any finite sequence of Exception-class failures, a
KeyboardInterrupt (the external shutdown signal) escapes the retry
loop, is caught by the top-level guard, and the process exits with
success status 0 rather than crashing; the terminated process releases
its resources, so the broker connection is not left half-open. -/
theorem c8_interrupt_clean_exit (es : List PyExn)
    (h : ∀ e ∈ es, e.isException = true) :
    Worker.workerProcess (es ++ [PyExn.keyboardInterrupt]) =
      Worker.ProcResult.exited 0 ∧
    Worker.connDisposition
      (Worker.workerProcess (es ++ [PyExn.keyboardInterrupt])) =
      Worker.ConnDisposition.released := by
  have h2 : (Worker.mainRun (es ++ [PyExn.keyboardInterrupt])).2 =
      some PyExn.keyboardInterrupt := by
    rw [Worker.mainRun_snd_append es _ h]; rfl
  constructor
  · simp [Worker.workerProcess, h2]
  · simp [Worker.workerProcess, h2, Worker.connDisposition]

/-- C8 witness: after one connection failure, an interrupt exits the
worker cleanly with status 0. -/
theorem c8_witness :
    (∀ e ∈ [PyExn.amqpConnectionError "refused"], e.isException = true) ∧
    (Worker.workerProcess ([PyExn.amqpConnectionError "refused"] ++
        [PyExn.keyboardInterrupt]) = Worker.ProcResult.exited 0 ∧
     Worker.connDisposition
       (Worker.workerProcess ([PyExn.amqpConnectionError "refused"] ++
         [PyExn.keyboardInterrupt])) = Worker.ConnDisposition.released) :=
  ⟨by decide, c8_interrupt_clean_exit _ (by decide)⟩

/-- C9: a record held by the broker stays held across any finite trace
of broker events containing no acknowledgment (removal happens only
upon acknowledgment); a consumer disconnect leaves no delivery
unacknowledged-and-lost: it requeues every unacknowledged record as
pending, available for redelivery to a subsequent consumer attempt. -/
theorem c9_at_least_once (s : Broker.BrokerState) (m : String)
    (tr : List Broker.BrokerEvent)
    (hm : Broker.inBroker m s = true)
    (hnoack : ∀ ev ∈ tr, ev.isAckEvent = false) :
    Broker.inBroker m (tr.foldl Broker.brokerStep s) = true ∧
    (Broker.brokerStep s Broker.BrokerEvent.disconnect).unacked = [] ∧
    (∀ tg, (tg, m) ∈ s.unacked →
      m ∈ (Broker.brokerStep s Broker.BrokerEvent.disconnect).pending) := by
  refine ⟨?_, rfl, ?_⟩
  · induction tr generalizing s with
    | nil => exact hm
    | cons ev rest ih =>
      exact ih _
        (Broker.inBroker_step s m ev (hnoack ev (by simp)) hm)
        (fun x hx => hnoack x (by simp [hx]))
  · intro tg htg
    simp only [Broker.brokerStep, List.mem_append, List.mem_map]
    exact Or.inl ⟨(tg, m), htg, rfl⟩

/-- C9 witness: a published record delivered but not acknowledged
survives a consumer disconnect and is pending again afterwards. -/
theorem c9_witness :
    (Broker.inBroker "Job_1700000000_scaling_test"
      ⟨[], [(7, "Job_1700000000_scaling_test")], 8⟩ = true ∧
     ∀ ev ∈ [Broker.BrokerEvent.disconnect, Broker.BrokerEvent.deliver],
       ev.isAckEvent = false) ∧
    (Broker.inBroker "Job_1700000000_scaling_test"
      ([Broker.BrokerEvent.disconnect,
        Broker.BrokerEvent.deliver].foldl Broker.brokerStep
        ⟨[], [(7, "Job_1700000000_scaling_test")], 8⟩) = true ∧
     (Broker.brokerStep ⟨[], [(7, "Job_1700000000_scaling_test")], 8⟩
       Broker.BrokerEvent.disconnect).unacked = [] ∧
     (∀ tg, (tg, "Job_1700000000_scaling_test") ∈
        ([(7, "Job_1700000000_scaling_test")] :
          List (Nat × String)) →
       "Job_1700000000_scaling_test" ∈
         (Broker.brokerStep ⟨[], [(7, "Job_1700000000_scaling_test")], 8⟩
           Broker.BrokerEvent.disconnect).pending)) :=
  ⟨⟨by decide, by decide⟩,
   c9_at_least_once _ _ _ (by decide) (by decide)⟩

/-- C10: if the processing handler raises an Exception-class exception
other than an AMQPConnectionError before the acknowledgment line, the
callback sends no acknowledgment for that delivery, the exception
propagates out of start_consuming, and the generic except clause of
the retry loop catches it, logging it and sleeping 5 seconds before
reconnecting; the loop continues instead of crashing or acknowledging
the message. -/
theorem c10_handler_failure_no_ack (acts : List Worker.WorkerAction)
    (e : PyExn) (tag : Nat)
    (hacts : ∀ a ∈ acts, a.isAck = false)
    (he : e.isException = true)
    (hna : e.isAMQPConnectionError = false) :
    (∀ a ∈ (Worker.runCallback (acts, some e) tag).1, a.isAck = false) ∧
    (Worker.runCallback (acts, some e) tag).2 = some e ∧
    Worker.mainStep e = some [Worker.SupAction.logUnexpected e.str,
      Worker.SupAction.sleepRetry 5] ∧
    (Worker.mainRun [e]).2 = none := by
  refine ⟨?_, rfl, ?_, ?_⟩
  · simpa [Worker.runCallback] using hacts
  · simp [Worker.mainStep, hna, he]
  · simp [Worker.mainRun, Worker.mainStep, hna, he]

/-- C10 witness: a handler that printed the received body and then
raised leaves the delivery unacknowledged and the loop retrying. -/
theorem c10_witness :
    ((∀ a ∈ [Worker.WorkerAction.printReceived "Job_1_x"],
        a.isAck = false) ∧
     (PyExn.otherException "boom").isException = true ∧
     (PyExn.otherException "boom").isAMQPConnectionError = false) ∧
    ((∀ a ∈ (Worker.runCallback
        ([Worker.WorkerAction.printReceived "Job_1_x"],
          some (PyExn.otherException "boom")) 7).1, a.isAck = false) ∧
     (Worker.runCallback ([Worker.WorkerAction.printReceived "Job_1_x"],
        some (PyExn.otherException "boom")) 7).2 =
       some (PyExn.otherException "boom") ∧
     Worker.mainStep (PyExn.otherException "boom") =
       some [Worker.SupAction.logUnexpected "boom",
         Worker.SupAction.sleepRetry 5] ∧
     (Worker.mainRun [PyExn.otherException "boom"]).2 = none) :=
  ⟨⟨by decide, rfl, rfl⟩,
   c10_handler_failure_no_ack _ _ 7 (by decide) rfl rfl⟩
